import Mathlib

/-!
# Verification of the virtual-circuit request/response benchmark harness

Shallow embedding of the coordination logic of `tibrvvcclient.c` (the
virtual-circuit client) and `tibrvserver.c` (the request/reply server).

The client is modelled as a small-step transition system over a bookkeeping
state mirroring the C `vcRec` structure plus the process-global counters;
each transition corresponds to one callback execution (a burst-loop
iteration, a `pubReqMsg` timer firing, the server processing a request, a
`serverResponse` delivery, or a `disconnectedVcCallback` advisory).
Message-level routines (`set_msg_data`, the server's `requestCallback`) are
embedded as pure functions over an explicit message record.  Machine
`tibrv_u32` arithmetic is `Nat` arithmetic taken `% 2^32` where the C code
can overflow.
-/

namespace TibrvVc

/-- Modulus of the C `tibrv_u32` type. -/
def U32MOD : Nat := 2 ^ 32

/-- `SEARCH_SUBJECT` of `tibrvvcclient.c` (line 65): the subject on which
the VC client broadcasts its locate request. -/
def vcclientSearchSubject : String := "TIBRV.VC.LOCATE"

/-- `SEARCH_SUBJECT` of `tibrvserver.c` (line 61): the subject on which the
server's search listener listens. -/
def serverSearchSubject : String := "TIBRV.LOCATE"

/-- `SEARCH_SUBJECT` of `tibrvclient.c` (line 78): the subject on which the
plain (non-VC) client broadcasts its locate request. -/
def tibrvclientSearchSubject : String := "TIBRV.LOCATE"

/-- `REQUEST_SUBJECT` of `tibrvvcclient.c`. -/
def requestSubject : String := "TIBRV.VC.WORK"

/-- `RESPONSE_SUBJECT` of `tibrvvcclient.c`. -/
def responseSubject : String := "TIBRV.VC.REPLY"

/-- A Rendezvous message, reduced to what the harness uses: named `u32`
data fields plus the send and reply subjects. -/
structure RvMsg where
  fields : List (String × Nat)
  sendSubject : Option String := none
  replySubject : Option String := none
deriving Repr, DecidableEq

/-- Field update as performed by `tibrvMsg_UpdateU32`: replace the value of
an existing field of that name, otherwise append a new field. -/
def updateField : List (String × Nat) → String → Nat → List (String × Nat)
  | [], name, v => [(name, v)]
  | (n, w) :: rest, name, v =>
      if n = name then (n, v) :: rest else (n, w) :: updateField rest name v

/-- `tibrvMsg_UpdateU32`. -/
def tibrvMsg_UpdateU32 (m : RvMsg) (name : String) (v : Nat) : RvMsg :=
  { m with fields := updateField m.fields name v }

/-- `tibrvMsg_GetU32`: look up a `u32` field by name. -/
def tibrvMsg_GetU32 (m : RvMsg) (name : String) : Option Nat :=
  (m.fields.find? (fun p => p.1 == name)).map Prod.snd

/-- The persistent `client_request` message as `main()` of `tibrvvcclient.c`
prepares it before any send: created empty, send subject set to
`REQUEST_SUBJECT`, reply subject set to `RESPONSE_SUBJECT`. -/
def initialClientRequest : RvMsg :=
  { fields := []
    sendSubject := some requestSubject
    replySubject := some responseSubject }

/-- `set_msg_data` of `tibrvvcclient.c` (lines 231-267): write the two
pseudo-random draws `x` and `y` and their `u32` sum into the persistent
`client_request` message.  The two `rand()` results are passed as
parameters. -/
def set_msg_data (x y : Nat) (client_request : RvMsg) : RvMsg :=
  let m1 := tibrvMsg_UpdateU32 client_request "x" x
  let m2 := tibrvMsg_UpdateU32 m1 "y" y
  tibrvMsg_UpdateU32 m2 "sum" ((x + y) % U32MOD)

/-- The `client_request` message after a sequence of `set_msg_data` calls
(most recent draw first), starting from the message `main()` prepared. -/
def clientRequestAfter : List (Nat × Nat) → RvMsg
  | [] => initialClientRequest
  | d :: ds => set_msg_data d.1 d.2 (clientRequestAfter ds)

/-- Destination of `tibrvTransport_SendReply transport reply request`: the
reply subject of the request message. -/
def sendReplyDestination (request : RvMsg) : Option String :=
  request.replySubject

/-- `requestCallback` of `tibrvserver.c` (lines 205-325).  Reads fields
`x` and `y` from the incoming request, computes their `u32` sum, and sends
a reply carrying field `sum` to the request's reply subject: a freshly
created message when `new_msg` is true, the received message updated in
place otherwise.  Returns the reply message and its destination, or `none`
when a field is missing (the C code exits). -/
def requestCallback (new_msg : Bool) (message : RvMsg) :
    Option (RvMsg × Option String) :=
  match tibrvMsg_GetU32 message "x", tibrvMsg_GetU32 message "y" with
  | some x, some y =>
      let sum := (x + y) % U32MOD
      if new_msg then
        let request_reply := tibrvMsg_UpdateU32 ⟨[], none, none⟩ "sum" sum
        some (request_reply, sendReplyDestination message)
      else
        let message2 := tibrvMsg_UpdateU32 message "sum" sum
        some (message2, sendReplyDestination message)
  | _, _ => none

/-- The states of the C enum `vcState` in `tibrvvcclient.c`. -/
inductive VcState where
  | initializing
  | waiting
  | connected
  | disconnected
deriving Repr, DecidableEq

/-- The run configuration of the client, fixed after argument parsing:
`requests` is the configured request count, `status_frq` the status display
frequency, and `paced` is true when a nonzero `-interval` was given (timer
mode) and false in burst mode. -/
structure Config where
  requests : Nat
  status_frq : Nat
  paced : Bool
deriving Repr, DecidableEq

/-- Client-side bookkeeping state: the fields of the C `vcRec` record that
carry the coordination logic, plus observation counters for the events the
specification talks about.  `sentinels` counts `allDone()` executions
(sends of the TEST.COMPLETED sentinel); `collectorDone` and `monitorDone`
attribute them to `serverResponse` and to `disconnectedVcCallback`;
`sendsWhileDisconnected` counts sends attempted on `vc_transport` while
`vc_state = disconnected`; `vcTransitions` counts assignments that change
the value of `vc_state`; `pacedPrints` records, in order, the `msgs_out`
values at which `pubReqMsg` printed a status line. -/
structure ClientState where
  msgs_in : Nat
  msgs_out : Nat
  vc_state : VcState
  timerActive : Bool
  reqInFlight : Nat
  respInFlight : Nat
  sentinels : Nat
  collectorDone : Nat
  monitorDone : Nat
  sendsWhileDisconnected : Nat
  vcTransitions : Nat
  pacedPrints : List Nat
deriving Repr, DecidableEq

/-- `allDone()` of `tibrvvcclient.c` (lines 391-403): send the
TEST.COMPLETED sentinel to the process transport.  Always sends; the C
routine has no guard. -/
def allDone (s : ClientState) : ClientState :=
  { s with sentinels := s.sentinels + 1 }

/-- One `tibrvTransport_Send` of `client_request` on `vc_transport`
followed by the `msgs_out++` that both call sites perform.  The sent
request is placed in flight towards the server. -/
def sendOnVc (s : ClientState) : ClientState :=
  { s with
    msgs_out := s.msgs_out + 1
    reqInFlight := s.reqInFlight + 1
    sendsWhileDisconnected :=
      s.sendsWhileDisconnected +
        (if s.vc_state = VcState.disconnected then 1 else 0) }

/-- `pubReqMsg` of `tibrvvcclient.c` (lines 473-524), the paced-mode timer
callback: send one request if `msgs_out < requests`; print a status line
when `status_frq > 0` and `(msgs_out / status_frq) * status_frq ==
msgs_out`; destroy the timer once `msgs_out == requests`. -/
def pubReqMsg (cfg : Config) (s : ClientState) : ClientState :=
  let s1 := if s.msgs_out < cfg.requests then sendOnVc s else s
  let s2 :=
    if 0 < cfg.status_frq ∧
        s1.msgs_out / cfg.status_frq * cfg.status_frq = s1.msgs_out then
      { s1 with pacedPrints := s1.pacedPrints ++ [s1.msgs_out] }
    else s1
  if s2.msgs_out = cfg.requests then { s2 with timerActive := false } else s2

/-- `serverResponse` of `tibrvvcclient.c` (lines 443-465), the response
collector: take one in-flight reply, increment `msgs_in`, and call
`allDone()` when `msgs_in >= requests`.  (Its status print writes no
state.) -/
def serverResponse (cfg : Config) (s : ClientState) : ClientState :=
  let s1 := { s with
    msgs_in := s.msgs_in + 1
    respInFlight := s.respInFlight - 1 }
  if cfg.requests ≤ s1.msgs_in then
    allDone { s1 with collectorDone := s1.collectorDone + 1 }
  else s1

/-- `disconnectedVcCallback` of `tibrvvcclient.c` (lines 411-433), the
session monitor: set `vc_state = disconnected` and call `allDone()`. -/
def disconnectedVcCallback (s : ClientState) : ClientState :=
  allDone
    { s with
      vc_state := VcState.disconnected
      vcTransitions := s.vcTransitions +
        (if s.vc_state = VcState.disconnected then 0 else 1)
      monitorDone := s.monitorDone + 1 }

/-- The events of a client run: one burst-loop iteration on the main
thread, one `pubReqMsg` timer firing, the server turning one in-flight
request into an in-flight reply, one `serverResponse` delivery, and one
disconnect-advisory callback. -/
inductive Event where
  | burstSend
  | timerFire
  | serverReply
  | respArrive
  | disconnectAdvisory
deriving Repr, DecidableEq

/-- One transition of the client run; `none` when the event is not enabled
in the given state (its guard in the C control flow does not hold). -/
def step (cfg : Config) (s : ClientState) : Event → Option ClientState
  | Event.burstSend =>
      if cfg.paced = false ∧ s.msgs_out < cfg.requests then
        some (sendOnVc s)
      else none
  | Event.timerFire =>
      if cfg.paced = true ∧ s.timerActive = true then
        some (pubReqMsg cfg s)
      else none
  | Event.serverReply =>
      if 0 < s.reqInFlight then
        some { s with
          reqInFlight := s.reqInFlight - 1
          respInFlight := s.respInFlight + 1 }
      else none
  | Event.respArrive =>
      if 0 < s.respInFlight then some (serverResponse cfg s) else none
  | Event.disconnectAdvisory => some (disconnectedVcCallback s)

/-- The client state right after setup in `main()`: counters zero,
`vc_state = initializing`, and the repeating timer registered exactly in
paced mode. -/
def initState (cfg : Config) : ClientState :=
  { msgs_in := 0
    msgs_out := 0
    vc_state := VcState.initializing
    timerActive := cfg.paced
    reqInFlight := 0
    respInFlight := 0
    sentinels := 0
    collectorDone := 0
    monitorDone := 0
    sendsWhileDisconnected := 0
    vcTransitions := 0
    pacedPrints := [] }

/-- Apply an event if enabled, otherwise leave the state unchanged. -/
def stepOrSkip (cfg : Config) (s : ClientState) (e : Event) : ClientState :=
  match step cfg s e with
  | some t => t
  | none => s

/-- The client state after a sequence of events. -/
def run (cfg : Config) (tr : List Event) : ClientState :=
  tr.foldl (stepOrSkip cfg) (initState cfg)

/-- `tibrvQueue_Dispatch(wait_queue)` in `main()` returns once a callback
runs on the wait queue: either the TEST.COMPLETED listener (a sentinel was
sent) or the disconnect-advisory callback. -/
def waitQueueUnblocked (s : ClientState) : Prop :=
  0 < s.sentinels ∨ 0 < s.monitorDone

instance (s : ClientState) : Decidable (waitQueueUnblocked s) := by
  unfold waitQueueUnblocked; infer_instance

/-- The status lines printed at multiples of `f`: the multiples of `f`
among `1..m`, in increasing order. -/
def statusList (f m : Nat) : List Nat :=
  ((List.range m).map (· + 1)).filter (fun v => v % f = 0)

/-- The final reporting block of `main()` in `tibrvvcclient.c`
(lines 776-815): whether the throughput rate line is printed, and the exit
status passed to `exit()`. -/
structure FinalReport where
  exitStatus : Nat
  reportsRate : Bool
deriving Repr, DecidableEq

/-- The client's statistics report and exit status as a function of the
configured request count and the received-response counter. -/
def clientFinalReport (requests msgs_in : Nat) : FinalReport :=
  if requests ≤ msgs_in then
    { exitStatus := 0, reportsRate := true }
  else
    { exitStatus := 1, reportsRate := false }

/-- A `tibrvQueue_TimedDispatch` result in the server's dispatch loop. -/
inductive RvStatus where
  | ok
  | timeout
  | err
deriving Repr, DecidableEq

/-- The dispatch loop at the end of `main()` in `tibrvserver.c`
(lines 450-476): repeatedly `TimedDispatch`; continue on `TIBRV_OK`, break
on anything else (in particular on `TIBRV_TIMEOUT`); after the loop the
server tears down and calls `exit(0)`.  Given the successive dispatch
results, returns the number of dispatch calls made and the process exit
code, `none` when the loop is still running after consuming the list. -/
def serverDispatchRun : List RvStatus → Nat × Option Nat
  | [] => (0, none)
  | RvStatus.ok :: rest =>
      ((serverDispatchRun rest).1 + 1, (serverDispatchRun rest).2)
  | RvStatus.timeout :: _ => (1, some 0)
  | RvStatus.err :: _ => (1, some 0)

/-! ## Arithmetic and list helpers -/

theorem div_mul_eq_self_iff (n f : Nat) : n / f * f = n ↔ n % f = 0 := by
  have h := Nat.div_add_mod n f
  rw [Nat.mul_comm] at h
  revert h
  generalize n / f * f = X
  generalize n % f = Y
  intro h
  omega

theorem statusList_succ (f m : Nat) :
    statusList f (m + 1) =
      statusList f m ++ (if (m + 1) % f = 0 then [m + 1] else []) := by
  unfold statusList
  rw [List.range_succ]
  simp only [List.map_append, List.filter_append, List.map_cons, List.map_nil,
    List.filter_cons, List.filter_nil]
  split <;> simp_all

/-! ## Characterizations of one `pubReqMsg` firing -/

theorem pubReqMsg_eq_of_lt (cfg : Config) (s : ClientState)
    (hm : s.msgs_out < cfg.requests) :
    pubReqMsg cfg s =
      { s with
        msgs_out := s.msgs_out + 1
        reqInFlight := s.reqInFlight + 1
        sendsWhileDisconnected := s.sendsWhileDisconnected +
          (if s.vc_state = VcState.disconnected then 1 else 0)
        pacedPrints := s.pacedPrints ++
          (if 0 < cfg.status_frq ∧ (s.msgs_out + 1) % cfg.status_frq = 0
           then [s.msgs_out + 1] else [])
        timerActive :=
          if s.msgs_out + 1 = cfg.requests then false else s.timerActive } := by
  unfold pubReqMsg sendOnVc
  rw [if_pos hm]
  by_cases hfrq : 0 < cfg.status_frq
  · by_cases htest :
        (s.msgs_out + 1) / cfg.status_frq * cfg.status_frq = s.msgs_out + 1
    · have hmod : (s.msgs_out + 1) % cfg.status_frq = 0 :=
        (div_mul_eq_self_iff _ _).mp htest
      simp only [hfrq, htest, hmod, true_and, and_true, if_true, if_pos]
      split <;> rfl
    · have hmod : ¬ (s.msgs_out + 1) % cfg.status_frq = 0 := fun hc =>
        htest ((div_mul_eq_self_iff _ _).mpr hc)
      simp only [htest, hmod, and_false, if_false, List.append_nil]
      split <;> rfl
  · have hfrq' : ¬ (0 < cfg.status_frq ∧
        (s.msgs_out + 1) % cfg.status_frq = 0) := fun hc => hfrq hc.1
    have hfrq'' : ¬ (0 < cfg.status_frq ∧
        (s.msgs_out + 1) / cfg.status_frq * cfg.status_frq = s.msgs_out + 1) :=
      fun hc => hfrq hc.1
    simp only [hfrq', hfrq'', if_false, List.append_nil]
    split <;> rfl

theorem pubReqMsg_eq_of_ge (cfg : Config) (s : ClientState)
    (hm : ¬ s.msgs_out < cfg.requests) :
    pubReqMsg cfg s =
      { s with
        pacedPrints := s.pacedPrints ++
          (if 0 < cfg.status_frq ∧ s.msgs_out % cfg.status_frq = 0
           then [s.msgs_out] else [])
        timerActive :=
          if s.msgs_out = cfg.requests then false else s.timerActive } := by
  unfold pubReqMsg
  rw [if_neg hm]
  by_cases hfrq : 0 < cfg.status_frq
  · by_cases htest : s.msgs_out / cfg.status_frq * cfg.status_frq = s.msgs_out
    · have hmod : s.msgs_out % cfg.status_frq = 0 :=
        (div_mul_eq_self_iff _ _).mp htest
      simp only [hfrq, htest, hmod, true_and, and_true, if_true, if_pos]
      split <;> rfl
    · have hmod : ¬ s.msgs_out % cfg.status_frq = 0 := fun hc =>
        htest ((div_mul_eq_self_iff _ _).mpr hc)
      simp only [htest, hmod, and_false, if_false, List.append_nil]
      split <;> rfl
  · have hfrq' : ¬ (0 < cfg.status_frq ∧
        s.msgs_out % cfg.status_frq = 0) := fun hc => hfrq hc.1
    have hfrq'' : ¬ (0 < cfg.status_frq ∧
        s.msgs_out / cfg.status_frq * cfg.status_frq = s.msgs_out) :=
      fun hc => hfrq hc.1
    simp only [hfrq', hfrq'', if_false, List.append_nil]
    split <;> rfl

/-! ## The run invariant -/

/-- The inductive invariant of a client run: the counters respect the
request budget; the in-flight bookkeeping bounds `msgs_in` by `msgs_out`;
the collector has triggered completion exactly once precisely when
`msgs_in` has reached a positive `requests`; every sentinel send is
attributed to the collector or the monitor; the session state is
`disconnected` exactly after a processed advisory, and has changed value
at most once; in paced mode the timer is registered exactly while the
send target is not yet met, and the status lines printed so far are
exactly the multiples of `status_frq` among the sent counts. -/
def Inv (cfg : Config) (s : ClientState) : Prop :=
  s.msgs_out ≤ cfg.requests ∧
  s.msgs_in + s.respInFlight + s.reqInFlight ≤ s.msgs_out ∧
  s.collectorDone =
    (if s.msgs_in = cfg.requests ∧ 0 < cfg.requests then 1 else 0) ∧
  s.sentinels = s.collectorDone + s.monitorDone ∧
  (s.vc_state = VcState.disconnected ↔ 0 < s.monitorDone) ∧
  s.vcTransitions = (if s.vc_state = VcState.disconnected then 1 else 0) ∧
  (cfg.paced = true → 0 < cfg.requests →
    (s.timerActive = true ↔ s.msgs_out < cfg.requests)) ∧
  (cfg.paced = true → 0 < cfg.status_frq → 0 < cfg.requests →
    s.pacedPrints = statusList cfg.status_frq s.msgs_out)

theorem Inv_initState (cfg : Config) : Inv cfg (initState cfg) := by
  unfold Inv initState
  refine ⟨Nat.zero_le _, Nat.le_refl _, ?_, rfl, by simp, by simp, ?_, ?_⟩
  · simp only []
    split <;> omega
  · intro hp hr
    simp [hp, hr]
  · intro _ _ _
    simp [statusList]

theorem Inv_sendOnVc (cfg : Config) (s : ClientState)
    (hInv : Inv cfg s) (hm : s.msgs_out < cfg.requests)
    (hpn : cfg.paced = false) : Inv cfg (sendOnVc s) := by
  obtain ⟨h1, h2, h3, h4, h5, h6, h7, h8⟩ := hInv
  unfold Inv sendOnVc
  refine ⟨by simp; omega, by simp; omega, by simpa using h3,
    by simpa using h4, by simpa using h5, by simpa using h6, ?_, ?_⟩
  · intro hp
    rw [hpn] at hp
    exact Bool.noConfusion hp
  · intro hp
    rw [hpn] at hp
    exact Bool.noConfusion hp

theorem Inv_pubReqMsg (cfg : Config) (s : ClientState)
    (hInv : Inv cfg s) (hp : cfg.paced = true) (hta : s.timerActive = true) :
    Inv cfg (pubReqMsg cfg s) := by
  obtain ⟨h1, h2, h3, h4, h5, h6, h7, h8⟩ := hInv
  by_cases hm : s.msgs_out < cfg.requests
  · rw [pubReqMsg_eq_of_lt cfg s hm]
    unfold Inv
    refine ⟨by simp; omega, by simp; omega, by simpa using h3,
      by simpa using h4, by simpa using h5, by simpa using h6, ?_, ?_⟩
    · intro _ _
      simp only []
      split
      next hend => simp; omega
      next hend =>
        rw [hta]
        simp only [true_iff]
        omega
    · intro _ hf hr
      simp only []
      rw [h8 hp hf hr, statusList_succ]
      congr 1
      split
      next hc => rw [if_pos hc.2]
      next hc =>
        rw [if_neg]
        intro hmod
        exact hc ⟨hf, hmod⟩
  · -- the timer can still be registered with the target met only when
    -- requests = 0 (the very first firing then destroys it)
    have hr0 : cfg.requests = 0 := by
      by_cases hr : 0 < cfg.requests
      · exact absurd ((h7 hp hr).mp hta) hm
      · omega
    have hm0 : s.msgs_out = 0 := by omega
    rw [pubReqMsg_eq_of_ge cfg s hm]
    unfold Inv
    refine ⟨by simpa using h1, by simpa using h2, by simpa using h3,
      by simpa using h4, by simpa using h5, by simpa using h6, ?_, ?_⟩
    · intro _ hr
      omega
    · intro _ _ hr
      omega

theorem Inv_serverResponse (cfg : Config) (s : ClientState)
    (hInv : Inv cfg s) (hg : 0 < s.respInFlight) :
    Inv cfg (serverResponse cfg s) := by
  obtain ⟨h1, h2, h3, h4, h5, h6, h7, h8⟩ := hInv
  have hin : s.msgs_in + 1 ≤ cfg.requests := by omega
  have hne : ¬ (s.msgs_in = cfg.requests ∧ 0 < cfg.requests) := by omega
  rw [if_neg hne] at h3
  unfold serverResponse allDone
  by_cases hc : cfg.requests ≤ s.msgs_in + 1
  · have heq : s.msgs_in + 1 = cfg.requests := by omega
    rw [if_pos (by simpa using hc)]
    unfold Inv
    refine ⟨by simpa using h1, by simp; omega, ?_, by simp; omega,
      by simpa using h5, by simpa using h6, by simpa using h7,
      by simpa using h8⟩
    simp only []
    rw [if_pos ⟨heq, by omega⟩]
    omega
  · rw [if_neg (by simpa using hc)]
    unfold Inv
    refine ⟨by simpa using h1, by simp; omega, ?_, by simp; omega,
      by simpa using h5, by simpa using h6, by simpa using h7,
      by simpa using h8⟩
    simp only []
    rw [if_neg (by omega)]
    omega

theorem Inv_disconnectedVcCallback (cfg : Config) (s : ClientState)
    (hInv : Inv cfg s) : Inv cfg (disconnectedVcCallback s) := by
  obtain ⟨h1, h2, h3, h4, h5, h6, h7, h8⟩ := hInv
  unfold Inv disconnectedVcCallback allDone
  refine ⟨by simpa using h1, by simpa using h2, by simpa using h3,
    by simp; omega, by simp, ?_, by simpa using h7, by simpa using h8⟩
  by_cases hd : s.vc_state = VcState.disconnected <;> simp [hd, h6]

theorem Inv_stepOrSkip (cfg : Config) (s : ClientState) (e : Event)
    (hInv : Inv cfg s) : Inv cfg (stepOrSkip cfg s e) := by
  cases e with
  | burstSend =>
      by_cases hc : cfg.paced = false ∧ s.msgs_out < cfg.requests
      · have hstep : stepOrSkip cfg s Event.burstSend = sendOnVc s := by
          unfold stepOrSkip step
          rw [if_pos hc]
        rw [hstep]
        exact Inv_sendOnVc cfg s hInv hc.2 hc.1
      · have hstep : stepOrSkip cfg s Event.burstSend = s := by
          unfold stepOrSkip step
          rw [if_neg hc]
        rw [hstep]
        exact hInv
  | timerFire =>
      by_cases hc : cfg.paced = true ∧ s.timerActive = true
      · have hstep : stepOrSkip cfg s Event.timerFire = pubReqMsg cfg s := by
          unfold stepOrSkip step
          rw [if_pos hc]
        rw [hstep]
        exact Inv_pubReqMsg cfg s hInv hc.1 hc.2
      · have hstep : stepOrSkip cfg s Event.timerFire = s := by
          unfold stepOrSkip step
          rw [if_neg hc]
        rw [hstep]
        exact hInv
  | serverReply =>
      by_cases hc : 0 < s.reqInFlight
      · have hstep : stepOrSkip cfg s Event.serverReply =
            { s with reqInFlight := s.reqInFlight - 1
                     respInFlight := s.respInFlight + 1 } := by
          unfold stepOrSkip step
          rw [if_pos hc]
        rw [hstep]
        obtain ⟨h1, h2, h3, h4, h5, h6, h7, h8⟩ := hInv
        exact ⟨by simpa using h1, by simp; omega, by simpa using h3,
          by simpa using h4, by simpa using h5, by simpa using h6,
          by simpa using h7, by simpa using h8⟩
      · have hstep : stepOrSkip cfg s Event.serverReply = s := by
          unfold stepOrSkip step
          rw [if_neg hc]
        rw [hstep]
        exact hInv
  | respArrive =>
      by_cases hc : 0 < s.respInFlight
      · have hstep : stepOrSkip cfg s Event.respArrive = serverResponse cfg s := by
          unfold stepOrSkip step
          rw [if_pos hc]
        rw [hstep]
        exact Inv_serverResponse cfg s hInv hc
      · have hstep : stepOrSkip cfg s Event.respArrive = s := by
          unfold stepOrSkip step
          rw [if_neg hc]
        rw [hstep]
        exact hInv
  | disconnectAdvisory =>
      have hstep : stepOrSkip cfg s Event.disconnectAdvisory =
          disconnectedVcCallback s := rfl
      rw [hstep]
      exact Inv_disconnectedVcCallback cfg s hInv

theorem Inv_foldl (cfg : Config) :
    ∀ (tr : List Event) (s : ClientState), Inv cfg s →
      Inv cfg (tr.foldl (stepOrSkip cfg) s)
  | [], _, h => h
  | e :: tr, s, h => Inv_foldl cfg tr _ (Inv_stepOrSkip cfg s e h)

/-- Every state reached by a client run satisfies the invariant. -/
theorem Inv_run (cfg : Config) (tr : List Event) : Inv cfg (run cfg tr) :=
  Inv_foldl cfg tr _ (Inv_initState cfg)

/-! ## Runs configured with zero requests -/

/-- In a run configured with zero requests, as long as no disconnect
advisory is processed, every counter stays zero. -/
def ZInv (s : ClientState) : Prop :=
  s.msgs_out = 0 ∧ s.msgs_in = 0 ∧ s.reqInFlight = 0 ∧ s.respInFlight = 0 ∧
  s.sentinels = 0 ∧ s.monitorDone = 0 ∧ s.collectorDone = 0

theorem ZInv_stepOrSkip (cfg : Config) (hr : cfg.requests = 0)
    (s : ClientState) (e : Event) (he : e ≠ Event.disconnectAdvisory)
    (h : ZInv s) : ZInv (stepOrSkip cfg s e) := by
  obtain ⟨z1, z2, z3, z4, z5, z6, z7⟩ := h
  cases e with
  | burstSend =>
      have hstep : stepOrSkip cfg s Event.burstSend = s := by
        unfold stepOrSkip step
        rw [if_neg (fun hc => absurd hc.2 (by omega))]
      rw [hstep]
      exact ⟨z1, z2, z3, z4, z5, z6, z7⟩
  | timerFire =>
      by_cases hc : cfg.paced = true ∧ s.timerActive = true
      · have hstep : stepOrSkip cfg s Event.timerFire = pubReqMsg cfg s := by
          unfold stepOrSkip step
          rw [if_pos hc]
        rw [hstep, pubReqMsg_eq_of_ge cfg s (by omega)]
        exact ⟨z1, z2, z3, z4, z5, z6, z7⟩
      · have hstep : stepOrSkip cfg s Event.timerFire = s := by
          unfold stepOrSkip step
          rw [if_neg hc]
        rw [hstep]
        exact ⟨z1, z2, z3, z4, z5, z6, z7⟩
  | serverReply =>
      have hstep : stepOrSkip cfg s Event.serverReply = s := by
        unfold stepOrSkip step
        rw [if_neg (show ¬ 0 < s.reqInFlight by omega)]
      rw [hstep]
      exact ⟨z1, z2, z3, z4, z5, z6, z7⟩
  | respArrive =>
      have hstep : stepOrSkip cfg s Event.respArrive = s := by
        unfold stepOrSkip step
        rw [if_neg (show ¬ 0 < s.respInFlight by omega)]
      rw [hstep]
      exact ⟨z1, z2, z3, z4, z5, z6, z7⟩
  | disconnectAdvisory => exact absurd rfl he

theorem ZInv_foldl (cfg : Config) (hr : cfg.requests = 0) :
    ∀ (tr : List Event), Event.disconnectAdvisory ∉ tr →
      ∀ s, ZInv s → ZInv (tr.foldl (stepOrSkip cfg) s)
  | [], _, _, h => h
  | e :: tr, hnd, s, h => by
      have he : e ≠ Event.disconnectAdvisory := fun hEq =>
        hnd (hEq ▸ List.mem_cons_self e tr)
      have hnd' : Event.disconnectAdvisory ∉ tr := fun hm =>
        hnd (List.mem_cons_of_mem _ hm)
      exact ZInv_foldl cfg hr tr hnd' _ (ZInv_stepOrSkip cfg hr s e he h)

/-! ## Claim theorems (run level) -/

/-- C1 counterexample: with one configured request, after the single
response completes the run (the collector sends the sentinel) a
subsequently processed disconnect advisory sends the sentinel a second
time — the C code has no first-writer-wins guard, so the triggers are not
mutually exclusive and a later trigger is not a no-op. -/
theorem c1_counterexample :
    (run ⟨1, 0, false⟩
      [Event.burstSend, Event.serverReply, Event.respArrive,
       Event.disconnectAdvisory]).sentinels = 2 := by
  decide

/-- C1 amended: allDone sends the sentinel once per firing trigger — once
from the collector when the received count first reaches a positive
request total (never twice from that path), and once from the monitor per
processed disconnect advisory; there is no guard making a later trigger a
no-op. -/
theorem c1_sentinel_per_trigger (cfg : Config) (tr : List Event) :
    (run cfg tr).sentinels =
      (run cfg tr).collectorDone + (run cfg tr).monitorDone ∧
    (run cfg tr).collectorDone ≤ 1 := by
  obtain ⟨-, -, h3, h4, -, -, -, -⟩ := Inv_run cfg tr
  refine ⟨h4, ?_⟩
  rw [h3]
  split <;> omega

/-- C2: at every reachable point of every client run, the
received-response counter satisfies receivedCount ≤ requestedTotal, and
the collector has signaled completion exactly once precisely when the
counter has reached a positive requestedTotal (the signal fires at the
response that first makes them equal, and never again). -/
theorem c2_received_le_total_signal_once (cfg : Config) (tr : List Event) :
    (run cfg tr).msgs_in ≤ cfg.requests ∧
    (run cfg tr).collectorDone =
      (if (run cfg tr).msgs_in = cfg.requests ∧ 0 < cfg.requests
       then 1 else 0) := by
  obtain ⟨h1, h2, h3, -, -, -, -, -⟩ := Inv_run cfg tr
  exact ⟨by omega, h3⟩

/-- C3 counterexample: in the burst-mode run configured with N = 0
requests, no event other than a disconnect advisory is even enabled in
the initial state, and the wait queue is not unblocked there — the run
does not complete. -/
theorem c3_counterexample :
    step ⟨0, 0, false⟩ (initState ⟨0, 0, false⟩) Event.burstSend = none ∧
    step ⟨0, 0, false⟩ (initState ⟨0, 0, false⟩) Event.timerFire = none ∧
    step ⟨0, 0, false⟩ (initState ⟨0, 0, false⟩) Event.serverReply = none ∧
    step ⟨0, 0, false⟩ (initState ⟨0, 0, false⟩) Event.respArrive = none ∧
    ¬ waitQueueUnblocked (initState ⟨0, 0, false⟩) := by
  decide

/-- C3 amended: with N = 0 requests no send is ever attempted, but the run
does not complete: no completion trigger ever fires (the collector never
runs and, absent a disconnect advisory, the sentinel is never sent), so
the main thread's wait at the Completion Coordinator never unblocks. -/
theorem c3_zero_requests_never_completes (cfg : Config) (tr : List Event)
    (hr : cfg.requests = 0) (hnd : Event.disconnectAdvisory ∉ tr) :
    (run cfg tr).msgs_out = 0 ∧ (run cfg tr).sentinels = 0 ∧
    ¬ waitQueueUnblocked (run cfg tr) := by
  have h : ZInv (run cfg tr) := ZInv_foldl cfg hr tr hnd (initState cfg)
    ⟨rfl, rfl, rfl, rfl, rfl, rfl, rfl⟩
  obtain ⟨z1, -, -, -, z5, z6, -⟩ := h
  refine ⟨z1, z5, ?_⟩
  unfold waitQueueUnblocked
  omega

/-- Witness for the amended C3 at a concrete zero-request run. -/
theorem c3_zero_requests_never_completes_witness :
    (run ⟨0, 0, false⟩ [Event.burstSend, Event.respArrive]).msgs_out = 0 ∧
    (run ⟨0, 0, false⟩ [Event.burstSend, Event.respArrive]).sentinels = 0 ∧
    ¬ waitQueueUnblocked (run ⟨0, 0, false⟩
      [Event.burstSend, Event.respArrive]) :=
  c3_zero_requests_never_completes ⟨0, 0, false⟩
    [Event.burstSend, Event.respArrive] rfl (by decide)

/-- C4 counterexample: in paced mode, after the disconnect advisory has
set the session state to disconnected, a timer firing still attempts a
send on `vc_transport` — `pubReqMsg` checks only the sent count, not the
session state. -/
theorem c4_counterexample :
    (run ⟨1, 0, true⟩
      [Event.disconnectAdvisory, Event.timerFire]).vc_state =
      VcState.disconnected ∧
    (run ⟨1, 0, true⟩
      [Event.disconnectAdvisory, Event.timerFire]).sendsWhileDisconnected
      = 1 := by
  decide

/-- C4 amended: the session state changes value (to disconnected) at most
once per run, and it is disconnected exactly after an advisory has been
processed; however, the code does not prevent further sends on
`vc_transport` after the transition (see the counterexample). -/
theorem c4_disconnect_transition_once (cfg : Config) (tr : List Event) :
    (run cfg tr).vcTransitions ≤ 1 ∧
    ((run cfg tr).vc_state = VcState.disconnected ↔
      0 < (run cfg tr).monitorDone) := by
  obtain ⟨-, -, -, -, h5, h6, -, -⟩ := Inv_run cfg tr
  refine ⟨?_, h5⟩
  rw [h6]
  split <;> omega

/-- C9: in paced mode with statusFrequency f > 0 and a positive request
target, the status lines printed by the timer callback are exactly the
multiples of f among the sent counts 1..sentCount, each exactly once and
in order (the code's `(msgs_out/f)*f == msgs_out` test is `sentCount mod
f == 0`), and the timer stays registered exactly until the sent counter
first reaches the target, at which point it self-cancels. -/
theorem c9_status_every_multiple (cfg : Config) (tr : List Event)
    (hp : cfg.paced = true) (hf : 0 < cfg.status_frq)
    (hr : 0 < cfg.requests) :
    (run cfg tr).pacedPrints =
      statusList cfg.status_frq (run cfg tr).msgs_out ∧
    ((run cfg tr).timerActive = true ↔
      (run cfg tr).msgs_out < cfg.requests) := by
  obtain ⟨-, -, -, -, -, -, h7, h8⟩ := Inv_run cfg tr
  exact ⟨h8 hp hf hr, h7 hp hr⟩

/-- Witness for C9 at a concrete paced run (target 3, frequency 2, two
timer firings). -/
theorem c9_status_every_multiple_witness :
    (run ⟨3, 2, true⟩ [Event.timerFire, Event.timerFire]).pacedPrints =
      statusList (Config.mk 3 2 true).status_frq
        (run ⟨3, 2, true⟩ [Event.timerFire, Event.timerFire]).msgs_out ∧
    ((run ⟨3, 2, true⟩ [Event.timerFire, Event.timerFire]).timerActive =
        true ↔
      (run ⟨3, 2, true⟩ [Event.timerFire, Event.timerFire]).msgs_out <
        (Config.mk 3 2 true).requests) :=
  c9_status_every_multiple ⟨3, 2, true⟩ [Event.timerFire, Event.timerFire]
    rfl (by decide) (by decide)

/-! ## Message-level lemmas -/

theorem find_updateField (l : List (String × Nat)) (name : String) (v : Nat) :
    (updateField l name v).find? (fun p => p.1 == name) = some (name, v) := by
  induction l with
  | nil => simp [updateField]
  | cons hd tl ih =>
    obtain ⟨n, w⟩ := hd
    by_cases h : n = name
    · subst h
      simp [updateField]
    · simp [updateField, h, ih]

theorem getU32_update_self (m : RvMsg) (name : String) (v : Nat) :
    tibrvMsg_GetU32 (tibrvMsg_UpdateU32 m name v) name = some v := by
  unfold tibrvMsg_GetU32 tibrvMsg_UpdateU32
  simp [find_updateField]

theorem set_msg_data_fields (m : RvMsg) (x y : Nat)
    (h : m.fields = [] ∨ ∃ a b c, m.fields = [("x", a), ("y", b), ("sum", c)]) :
    (set_msg_data x y m).fields =
      [("x", x), ("y", y), ("sum", (x + y) % U32MOD)] := by
  rcases h with h | ⟨a, b, c, h⟩ <;>
    simp [set_msg_data, tibrvMsg_UpdateU32, updateField, h]

theorem clientRequestAfter_shape (draws : List (Nat × Nat)) :
    (clientRequestAfter draws).fields = [] ∨
    ∃ a b c, (clientRequestAfter draws).fields =
      [("x", a), ("y", b), ("sum", c)] := by
  induction draws with
  | nil => left; rfl
  | cons d ds ih =>
    right
    exact ⟨d.1, d.2, (d.1 + d.2) % U32MOD, set_msg_data_fields _ d.1 d.2 ih⟩

/-! ## Claim theorems (message level, reporting, server) -/

/-- C10: every request message the client sends already carries a field
"sum" that the client itself set to (x + y) mod 2^32 for the same message's
pseudo-random fields x and y, so the payload leaving the client is exactly
the three fields x, y, sum. -/
theorem c10_client_request_carries_sum (draws : List (Nat × Nat)) (x y : Nat) :
    (set_msg_data x y (clientRequestAfter draws)).fields =
      [("x", x), ("y", y), ("sum", (x + y) % U32MOD)] :=
  set_msg_data_fields _ x y (clientRequestAfter_shape draws)

/-- C6: for every client request carrying u32 fields x and y, the server's
request callback replies on the request's reply address with a message
whose field "sum" equals (x + y) mod 2^32, in both the new-message and the
in-place reply paths. -/
theorem c6_server_reply_sum (new_msg : Bool) (message : RvMsg) (x y : Nat)
    (hx : tibrvMsg_GetU32 message "x" = some x)
    (hy : tibrvMsg_GetU32 message "y" = some y) :
    ∃ reply, requestCallback new_msg message =
        some (reply, message.replySubject) ∧
      tibrvMsg_GetU32 reply "sum" = some ((x + y) % U32MOD) := by
  unfold requestCallback
  rw [hx, hy]
  cases new_msg
  · exact ⟨_, rfl, getU32_update_self ..⟩
  · exact ⟨_, rfl, getU32_update_self ..⟩

/-- A concrete request on which `c6_server_reply_sum` is exercised. -/
def c6msgW : RvMsg :=
  { fields := [("x", 7), ("y", 9)]
    sendSubject := none
    replySubject := some "REPLY.DEST" }

/-- Witness for C6 at a concrete request message. -/
theorem c6_server_reply_sum_witness :
    ∃ reply, requestCallback true c6msgW =
        some (reply, c6msgW.replySubject) ∧
      tibrvMsg_GetU32 reply "sum" = some ((7 + 9) % U32MOD) :=
  c6_server_reply_sum true c6msgW 7 9 (by decide) (by decide)

/-- C5: the client exits with status 0 iff receivedCount ≥ requestedTotal
when the main thread resumes; the throughput rate is reported in exactly
that case, and a partial run exits with status 1. -/
theorem c5_exit_status_iff (requests msgs_in : Nat) :
    ((clientFinalReport requests msgs_in).exitStatus = 0 ↔
      requests ≤ msgs_in) ∧
    ((clientFinalReport requests msgs_in).reportsRate = true ↔
      requests ≤ msgs_in) ∧
    ((clientFinalReport requests msgs_in).exitStatus = 1 ↔
      ¬ requests ≤ msgs_in) := by
  unfold clientFinalReport
  by_cases h : requests ≤ msgs_in <;> simp [h]

/-- C7 counterexample: when the server's dispatch loop sees an idle
timeout, the process exit code is 0, not the non-zero code the claim
states. -/
theorem c7_counterexample :
    (serverDispatchRun [RvStatus.timeout]).1 = 1 ∧
    (serverDispatchRun [RvStatus.timeout]).2 = some 0 := by
  decide

/-- C7 amended: an idle timeout ends the server's dispatch loop at once
(no further dispatch call is made, so the condition is not retried) and
the process then terminates with exit code 0. -/
theorem c7_idle_timeout_fatal_exit_zero (pre rest : List RvStatus)
    (hpre : ∀ s ∈ pre, s = RvStatus.ok) :
    serverDispatchRun (pre ++ RvStatus.timeout :: rest) =
      (pre.length + 1, some 0) := by
  induction pre with
  | nil => simp [serverDispatchRun]
  | cons hd tl ih =>
    have hhd : hd = RvStatus.ok := hpre hd (by simp)
    subst hhd
    have htl := ih (fun s hs => hpre s (by simp [hs]))
    simp [serverDispatchRun, htl]

/-- Witness for the amended C7 at a concrete dispatch-result sequence. -/
theorem c7_idle_timeout_fatal_exit_zero_witness :
    serverDispatchRun ([RvStatus.ok] ++ RvStatus.timeout :: []) =
      ([RvStatus.ok].length + 1, some 0) :=
  c7_idle_timeout_fatal_exit_zero [RvStatus.ok] [] (by decide)

/-- C8 counterexample: the VC client's locate subject and this server's
search subject are different strings. -/
theorem c8_counterexample : vcclientSearchSubject ≠ serverSearchSubject := by
  decide

/-- C8 amended: the server's search subject equals the plain (non-VC)
client's locate subject, while the VC client's locate subject differs from
it, so the VC client's discovery broadcast does not match the subject this
server listens on. -/
theorem c8_subject_mismatch :
    serverSearchSubject = tibrvclientSearchSubject ∧
    vcclientSearchSubject ≠ serverSearchSubject := by
  exact ⟨rfl, by decide⟩

end TibrvVc
